import Mathlib

/-
Shallow embedding of the WLAM sensor application core
(`wlam_sensor_app.cc`) and the Weissberger path-loss collaborator
(`WeissbergerPathLoss.cc`) of the TUE2526-5LIC0-NetwEmb repository.

Simulated time is modelled by rationals; `SIMTIME_MAX` becomes the
sentinel constructor `SimT.maxT`.  Doubles are modelled by rationals
(exact arithmetic); `NAN` placeholders become `Option.none`.  The
pseudo-random draws of the source (`uniform`, `normal` inside the
generator functions) are modelled by oracle streams carried in the
environment, so every definition stays executable.
-/

set_option maxRecDepth 8000
set_option maxHeartbeats 1000000
set_option linter.unusedVariables false

/-- The `SensorID` enumeration of `wlam_sensor_app.h`:
`SID_TEMPERATURE = 0`, `SID_NO2 = 1`, `SID_HUMIDITY = 2`,
`SID_COUNTER = 3` (and `SID_COUNT = 4`, the table size, which is not a
quantity and so has no constructor). -/
inductive SensorID where
  | temperature
  | no2
  | humidity
  | counterQ
deriving DecidableEq

/-- The order in which `sampleAndSendIfDue` scans the sensor table
(`for i = 0; i < SID_COUNT; ++i`): ascending enum value, i.e.
`SID_TEMPERATURE`, `SID_NO2`, `SID_HUMIDITY`, `SID_COUNTER`. -/
def loopOrder : List SensorID :=
  [SensorID.temperature, SensorID.no2, SensorID.humidity, SensorID.counterQ]

/-- Simulated time: a finite rational instant or the `SIMTIME_MAX` sentinel. -/
inductive SimT where
  | fin (t : ℚ)
  | maxT
deriving DecidableEq

/-- Boolean `<=` on simulated times (the comparison `s.nextDue <= now`). -/
def SimT.leB : SimT → SimT → Bool
  | SimT.fin a, SimT.fin b => decide (a ≤ b)
  | SimT.fin _, SimT.maxT => true
  | SimT.maxT, SimT.fin _ => false
  | SimT.maxT, SimT.maxT => true

/-- Boolean `<` on simulated times. -/
def SimT.ltB : SimT → SimT → Bool
  | SimT.fin a, SimT.fin b => decide (a < b)
  | SimT.fin _, SimT.maxT => true
  | SimT.maxT, _ => false

/-- `d.dueAt now` is the firing test `s.nextDue <= now` of the source. -/
def SimT.dueAt (d : SimT) (now : ℚ) : Bool :=
  SimT.leB d (SimT.fin now)

/-- Per-quantity state: the `SensorState` struct of
`wlam_sensor_app.h` (entries of the `sensors` table).  The `id` member
of the source always equals the table index and is therefore not
repeated here. -/
structure SensorState where
  interval : ℚ
  isCounter : Bool
  lastValue : Option ℚ
  counter : ℤ
  nextDue : SimT
deriving DecidableEq

/-- Modelled from the spec: the `SB_*` presence-bit constants come
from the generated message header `DataPacket_m.h`, which is not among
the provided sources (only included by `wlam_sensor_app.h`).  The spec
describes a "presence bitmap (one bit per quantity)", so the bitmap is
modelled as one Bool per quantity; the application code only ever ORs
single bits in and tests single bits, so no claim depends on the
numeric bit positions. -/
structure Bitmap where
  temperature : Bool
  no2 : Bool
  humidity : Bool
  counter : Bool
deriving DecidableEq

/-- `SB_NONE`: the empty presence bitmap. -/
def SB_NONE : Bitmap :=
  { temperature := false, no2 := false, humidity := false, counter := false }

/-- The presence bit of a given quantity in a bitmap. -/
def Bitmap.bit : SensorID → Bitmap → Bool
  | SensorID.temperature, b => b.temperature
  | SensorID.no2, b => b.no2
  | SensorID.humidity, b => b.humidity
  | SensorID.counterQ, b => b.counter

/-- Live state of the external `LoRaRadio` component: the five
transmission parameters touched by this core. -/
structure LoRaRadioState where
  loRaTP : ℚ
  loRaCF : ℚ
  loRaSF : ℤ
  loRaBW : ℚ
  loRaCR : ℤ
deriving DecidableEq

/-- The `LoRaTag` metadata attached to outgoing packets. -/
structure LoRaTag where
  spreadFactor : ℤ
  bandwidth : ℚ
  centerFrequency : ℚ
  power : ℚ
  codeRendundance : ℤ
deriving DecidableEq

/-- An outbound packet: the `LoRaSensorPacket` payload fields plus the
optional `LoRaTag`.  `chunkBytes` is the wire size set by
`setChunkLength`. -/
structure Packet where
  bitmap : Bitmap
  temperature : Option ℚ
  no2 : Option ℚ
  humidity : Option ℚ
  counter : ℤ
  nodeId : String
  createdAt : ℚ
  chunkBytes : ℕ
  tag : Option LoRaTag
deriving DecidableEq

/-- Observability signals emitted by the module (`emit` calls). -/
inductive Signal where
  | temp (v : ℚ)
  | hum (v : ℚ)
  | no2Sig (v : ℚ)
  | counterSig (c : ℤ)
  | pktSent (b : Bitmap)
deriving DecidableEq

/-- Module parameters and random-source oracles.  `tempGen`, `humGen`
and `no2Gen` list the successive return values of `genTemperature`,
`genHumidity` and `genNO2` (each of which reads the diurnal model plus
a fresh `normal` noise draw); `off id` is the `uniform(-jitter, jitter)`
offset drawn when quantity `id` recomputes its `nextDue` in this cycle;
`dBmW2mW` is the external `math::dBmW2mW` conversion. -/
structure Env where
  jitterFrac : ℚ
  basePayloadBytes : ℕ
  counterPayloadBytes : ℕ
  nodeId : String
  loRaRadioSt : Option LoRaRadioState
  dBmW2mW : ℚ → ℚ
  tempGen : ℕ → ℚ
  humGen : ℕ → ℚ
  no2Gen : ℕ → ℚ
  off : SensorID → ℚ

/-- `sizeof(simtime_t)`: OMNeT++ simulation time is a 64-bit value;
the spec fixes the timestamp at 8 bytes. -/
def sizeofSimtime : ℕ := 8

/-- `sizeof(double)`. -/
def sizeofDouble : ℕ := 8

/-- The size accounting of `sampleAndSendIfDue` (lines 261-268):
base + bitmap byte + timestamp + one double per present non-counter
field + `counterPayloadBytes` when the counter bit is set. -/
def packetBytes (basePayloadBytes counterPayloadBytes : ℕ) (b : Bitmap) : ℕ :=
  basePayloadBytes + 1 + sizeofSimtime
    + (if b.temperature then sizeofDouble else 0)
    + (if b.no2 then sizeofDouble else 0)
    + (if b.humidity then sizeofDouble else 0)
    + (if b.counter then counterPayloadBytes else 0)

/-- `wlam_sensor_app::initSensor`: the initial per-quantity state.
`offset` stands for the `uniform(-interval*jitterFrac, interval*jitterFrac)`
draw of the source (only consulted when `interval > 0`). -/
def initSensor (jitterFrac : ℚ) (interval : ℚ) (isCounter : Bool)
    (now : ℚ) (offset : ℚ) : SensorState :=
  { interval := interval
    isCounter := isCounter
    lastValue := none
    counter := 0
    nextDue := if 0 < interval then SimT.fin (now + interval + offset) else SimT.maxT }

/-- `wlam_sensor_app::applyInitialLoRaParams`: when a radio was
located, overwrites its five transmission parameters with the
configured initial values; otherwise does nothing. -/
def applyInitialLoRaParams (initTPdBm initCFHz : ℚ) (initSF : ℤ)
    (initBWHZ : ℚ) (initCR : ℤ) (rOpt : Option LoRaRadioState) :
    Option LoRaRadioState :=
  match rOpt with
  | none => none
  | some _ =>
      some { loRaTP := initTPdBm, loRaCF := initCFHz, loRaSF := initSF,
             loRaBW := initBWHZ, loRaCR := initCR }

/-- `wlam_sensor_app::attachLoRaTag`: reads the radio's current
parameters into a tag on the packet; a no-op when no radio was located.
The radio state is returned unchanged, making the function's frame
explicit (the source only reads `loRaRadio`). -/
def attachLoRaTag (dBmW2mW : ℚ → ℚ) (rOpt : Option LoRaRadioState)
    (pkt : Packet) : Packet × Option LoRaRadioState :=
  match rOpt with
  | none => (pkt, none)
  | some r =>
      ({ pkt with tag := some { spreadFactor := r.loRaSF
                                bandwidth := r.loRaBW
                                centerFrequency := r.loRaCF
                                power := dBmW2mW r.loRaTP
                                codeRendundance := r.loRaCR } }, some r)

/-- The local accumulator of one `sampleAndSendIfDue` invocation:
bitmap, local reading variables, the mutable sensor table, the oracle
stream positions and the emitted-signal trace. -/
structure CycleAcc where
  bitmap : Bitmap
  temperature : Option ℚ
  humidity : Option ℚ
  no2 : Option ℚ
  counterVal : ℤ
  st : SensorID → SensorState
  tIdx : ℕ
  hIdx : ℕ
  nIdx : ℕ
  sigs : List Signal

/-- The accumulator at the top of `sampleAndSendIfDue` (locals
initialised to `SB_NONE`, `NAN`, `0`). -/
def initAcc (st : SensorID → SensorState) : CycleAcc :=
  { bitmap := SB_NONE
    temperature := none
    humidity := none
    no2 := none
    counterVal := 0
    st := st
    tIdx := 0
    hIdx := 0
    nIdx := 0
    sigs := [] }

/-- One iteration of the scan loop of `sampleAndSendIfDue`
(lines 199-245): if quantity `id` is due, run its switch case and
recompute its `nextDue`. -/
def processSensor (env : Env) (now : ℚ) (acc : CycleAcc) (id : SensorID) :
    CycleAcc :=
  let s := acc.st id
  if SimT.dueAt s.nextDue now then
    let acc1 : CycleAcc :=
      match id with
      | SensorID.temperature =>
          let tv := env.tempGen acc.tIdx
          let hv := env.humGen acc.hIdx
          { acc with
            temperature := some tv
            humidity := some hv
            tIdx := acc.tIdx + 1
            hIdx := acc.hIdx + 1
            sigs := acc.sigs ++ [Signal.temp tv, Signal.hum hv]
            bitmap := { acc.bitmap with temperature := true, humidity := true } }
      | SensorID.no2 =>
          let nv := env.no2Gen acc.nIdx
          { acc with
            no2 := some nv
            nIdx := acc.nIdx + 1
            st := Function.update acc.st id { s with lastValue := some nv }
            sigs := acc.sigs ++ [Signal.no2Sig nv]
            bitmap := { acc.bitmap with no2 := true } }
      | SensorID.humidity =>
          let hv := env.humGen acc.hIdx
          { acc with
            humidity := some hv
            hIdx := acc.hIdx + 1
            st := Function.update acc.st id { s with lastValue := some hv }
            sigs := acc.sigs ++ [Signal.hum hv]
            bitmap := { acc.bitmap with humidity := true } }
      | SensorID.counterQ =>
          let c := s.counter + 1
          { acc with
            counterVal := c
            st := Function.update acc.st id { s with counter := c }
            sigs := acc.sigs ++ [Signal.counterSig c]
            bitmap := { acc.bitmap with counter := true } }
    let s1 := acc1.st id
    let nd := if 0 < s1.interval
              then SimT.fin (now + s1.interval + env.off id)
              else SimT.maxT
    { acc1 with st := Function.update acc1.st id { s1 with nextDue := nd } }
  else
    acc

/-- The whole scan loop of `sampleAndSendIfDue`. -/
def runCycle (env : Env) (now : ℚ) (st : SensorID → SensorState) : CycleAcc :=
  List.foldl (processSensor env now) (initAcc st) loopOrder

/-- The `LoRaSensorPacket` payload built after a non-empty scan
(lines 250-268), before tagging. -/
def buildPayload (env : Env) (now : ℚ) (a : CycleAcc) : Packet :=
  { bitmap := a.bitmap
    temperature := a.temperature
    no2 := a.no2
    humidity := a.humidity
    counter := a.counterVal
    nodeId := env.nodeId
    createdAt := now
    chunkBytes := packetBytes env.basePayloadBytes env.counterPayloadBytes a.bitmap
    tag := none }

/-- `wlam_sensor_app::sampleAndSendIfDue`: returns the updated sensor
table, the packet handed to `send` (none on a silent no-op cycle) and
the trace of emitted signals. -/
def sampleAndSendIfDue (env : Env) (st : SensorID → SensorState) (now : ℚ) :
    (SensorID → SensorState) × Option Packet × List Signal :=
  if (runCycle env now st).bitmap = SB_NONE then
    ((runCycle env now st).st, none, (runCycle env now st).sigs)
  else
    ((runCycle env now st).st,
     some (attachLoRaTag env.dBmW2mW env.loRaRadioSt
             (buildPayload env now (runCycle env now st))).1,
     (runCycle env now st).sigs ++ [Signal.pktSent (runCycle env now st).bitmap])

/-- `WeissbergerPathLoss::computePathLoss`, vegetation term
(lines 36-43): Weissberger attenuation in dB as a function of the
frequency in GHz and the foliage depth in metres. -/
noncomputable def weissbergerVeg (fGHz vegDepth : ℝ) : ℝ :=
  if 0 < vegDepth then
    if vegDepth ≤ 14 then 0.45 * fGHz ^ (0.284 : ℝ) * vegDepth
    else 1.33 * fGHz ^ (0.284 : ℝ) * vegDepth ^ (0.588 : ℝ)
  else 0

/-- `WeissbergerPathLoss::computePathLoss`: free-space loss from the
parent class (an external collaborator, passed in as `fspl`) plus the
Weissberger vegetation term. -/
noncomputable def computePathLoss (fspl : ℝ → ℝ → ℝ)
    (vegDepth distance frequency : ℝ) : ℝ :=
  fspl distance frequency + weissbergerVeg (frequency / 1e9) vegDepth

/-- The per-quantity state after the quantity fired in the scan at time
`now` from table `st`: the switch-case update followed by the `nextDue`
recomputation.  (The humidity's generator index depends on whether the
temperature quantity fired earlier in the same scan.) -/
def firedState (env : Env) (now : ℚ) (st : SensorID → SensorState)
    (id : SensorID) : SensorState :=
  let s := st id
  let s1 : SensorState :=
    match id with
    | SensorID.temperature => s
    | SensorID.no2 => { s with lastValue := some (env.no2Gen 0) }
    | SensorID.humidity =>
        { s with lastValue := some (env.humGen
            (if SimT.dueAt (st SensorID.temperature).nextDue now then 1 else 0)) }
    | SensorID.counterQ => { s with counter := s.counter + 1 }
  { s1 with nextDue := if 0 < s1.interval
                       then SimT.fin (now + s1.interval + env.off id)
                       else SimT.maxT }

lemma runCycle_st (env : Env) (now : ℚ) (st : SensorID → SensorState)
    (id : SensorID) :
    (runCycle env now st).st id =
      if SimT.dueAt (st id).nextDue now = true then firedState env now st id
      else st id := by
  cases id <;>
    cases hT : SimT.dueAt (st SensorID.temperature).nextDue now <;>
    cases hN : SimT.dueAt (st SensorID.no2).nextDue now <;>
    cases hH : SimT.dueAt (st SensorID.humidity).nextDue now <;>
    cases hC : SimT.dueAt (st SensorID.counterQ).nextDue now <;>
    simp [runCycle, loopOrder, initAcc, processSensor, firedState,
      hT, hN, hH, hC, Function.update_apply]

lemma runCycle_bitmap (env : Env) (now : ℚ) (st : SensorID → SensorState) :
    (runCycle env now st).bitmap =
      { temperature := SimT.dueAt (st SensorID.temperature).nextDue now
        no2 := SimT.dueAt (st SensorID.no2).nextDue now
        humidity := SimT.dueAt (st SensorID.temperature).nextDue now
                      || SimT.dueAt (st SensorID.humidity).nextDue now
        counter := SimT.dueAt (st SensorID.counterQ).nextDue now } := by
  cases hT : SimT.dueAt (st SensorID.temperature).nextDue now <;>
    cases hN : SimT.dueAt (st SensorID.no2).nextDue now <;>
    cases hH : SimT.dueAt (st SensorID.humidity).nextDue now <;>
    cases hC : SimT.dueAt (st SensorID.counterQ).nextDue now <;>
    simp [runCycle, loopOrder, initAcc, processSensor, SB_NONE,
      hT, hN, hH, hC, Function.update_apply]

lemma runCycle_none (env : Env) (now : ℚ) (st : SensorID → SensorState)
    (h : ∀ id, SimT.dueAt (st id).nextDue now = false) :
    runCycle env now st = initAcc st := by
  simp [runCycle, loopOrder, initAcc, processSensor,
    h SensorID.temperature, h SensorID.no2, h SensorID.humidity,
    h SensorID.counterQ]

lemma sample_fst (env : Env) (st : SensorID → SensorState) (now : ℚ) :
    (sampleAndSendIfDue env st now).1 = (runCycle env now st).st := by
  by_cases h : (runCycle env now st).bitmap = SB_NONE <;>
    simp [sampleAndSendIfDue, h]

lemma sample_some (env : Env) (st : SensorID → SensorState) (now : ℚ)
    (h : (runCycle env now st).bitmap ≠ SB_NONE) :
    (sampleAndSendIfDue env st now).2.1 =
      some (attachLoRaTag env.dBmW2mW env.loRaRadioSt
              (buildPayload env now (runCycle env now st))).1 := by
  simp [sampleAndSendIfDue, h]

lemma attachLoRaTag_fst_bitmap (f : ℚ → ℚ) (rOpt : Option LoRaRadioState)
    (pkt : Packet) : ((attachLoRaTag f rOpt pkt).1).bitmap = pkt.bitmap := by
  cases rOpt <;> rfl

lemma attachLoRaTag_fst_counter (f : ℚ → ℚ) (rOpt : Option LoRaRadioState)
    (pkt : Packet) : ((attachLoRaTag f rOpt pkt).1).counter = pkt.counter := by
  cases rOpt <;> rfl

lemma attachLoRaTag_fst_chunkBytes (f : ℚ → ℚ) (rOpt : Option LoRaRadioState)
    (pkt : Packet) :
    ((attachLoRaTag f rOpt pkt).1).chunkBytes = pkt.chunkBytes := by
  cases rOpt <;> rfl

lemma attachLoRaTag_fst_humidity (f : ℚ → ℚ) (rOpt : Option LoRaRadioState)
    (pkt : Packet) :
    ((attachLoRaTag f rOpt pkt).1).humidity = pkt.humidity := by
  cases rOpt <;> rfl

lemma runCycle_counterVal (env : Env) (now : ℚ) (st : SensorID → SensorState) :
    (runCycle env now st).counterVal =
      if SimT.dueAt (st SensorID.counterQ).nextDue now = true
      then (st SensorID.counterQ).counter + 1 else 0 := by
  cases hT : SimT.dueAt (st SensorID.temperature).nextDue now <;>
    cases hN : SimT.dueAt (st SensorID.no2).nextDue now <;>
    cases hH : SimT.dueAt (st SensorID.humidity).nextDue now <;>
    cases hC : SimT.dueAt (st SensorID.counterQ).nextDue now <;>
    simp [runCycle, loopOrder, initAcc, processSensor,
      hT, hN, hH, hC, Function.update_apply]

lemma packetBytes_formula (b c : ℕ) (bm : Bitmap) :
    packetBytes b c bm = b + 1 + 8
      + 8 * ((if bm.temperature then 1 else 0) + (if bm.no2 then 1 else 0)
             + (if bm.humidity then 1 else 0))
      + (if bm.counter then c else 0) := by
  rcases bm with ⟨t, n, h2, c2⟩
  cases t <;> cases n <;> cases h2 <;> cases c2 <;>
    simp [packetBytes, sizeofSimtime, sizeofDouble]

/-- A concrete live state of the external radio, used to exhibit that
startup overwrites it. -/
def rLive : LoRaRadioState :=
  { loRaTP := 2, loRaCF := 868100000, loRaSF := 12, loRaBW := 125000, loRaCR := 1 }

/-- C1 counterexample: `applyInitialLoRaParams`, run at startup, does
mutate the external radio's live state — applying the configured
initial parameters (TP 14 dBm, SF 7, CR 4, ...) to a radio currently at
TP 2 dBm, SF 12, CR 1 changes that radio's state, contradicting the
claim that the core only ever reads the radio. -/
theorem C1_cex :
    applyInitialLoRaParams 14 868000000 7 125000 4 (some rLive) ≠ some rLive := by
  decide

/-- C1 (amended): the core writes the external radio's transmission
parameters exactly once, at startup: `applyInitialLoRaParams`
overwrites the five parameters with the configured initial values when
a radio was located and is a no-op otherwise; after that the core only
reads the radio — packet tagging (`attachLoRaTag`) leaves the radio
state unchanged. -/
theorem C1_radioAccess :
    (∀ f rOpt pkt, (attachLoRaTag f rOpt pkt).2 = rOpt)
    ∧ (∀ tp cf sf bw cr r,
        applyInitialLoRaParams tp cf sf bw cr (some r)
          = some { loRaTP := tp, loRaCF := cf, loRaSF := sf,
                   loRaBW := bw, loRaCR := cr })
    ∧ (∀ tp cf sf bw cr,
        applyInitialLoRaParams tp cf sf bw cr none = none) := by
  refine ⟨fun f rOpt pkt => ?_, fun _ _ _ _ _ _ => rfl, fun _ _ _ _ _ => rfl⟩
  cases rOpt <;> rfl

/-- C2: whenever the Temperature quantity is due at a wake-up, the
outbound record built in that cycle has both the temperature and the
humidity presence bits set (regardless of Humidity's own timer). -/
theorem C2_tempCouplesHumidity (env : Env) (st : SensorID → SensorState)
    (now : ℚ)
    (hT : SimT.dueAt (st SensorID.temperature).nextDue now = true) :
    ∃ p, (sampleAndSendIfDue env st now).2.1 = some p
      ∧ p.bitmap.temperature = true ∧ p.bitmap.humidity = true := by
  have hb := runCycle_bitmap env now st
  have hne : (runCycle env now st).bitmap ≠ SB_NONE := by
    rw [hb]; simp [SB_NONE, hT]
  refine ⟨_, sample_some env st now hne, ?_, ?_⟩ <;>
    rw [attachLoRaTag_fst_bitmap] <;> simp [buildPayload, hb, hT]

/-- C2 witness: a concrete environment for the coupling theorem. -/
def envW2 : Env :=
  { jitterFrac := 0, basePayloadBytes := 10, counterPayloadBytes := 4,
    nodeId := "node", loRaRadioSt := none, dBmW2mW := fun x => x,
    tempGen := fun _ => 21, humGen := fun n => (n : ℚ), no2Gen := fun _ => 0,
    off := fun _ => 0 }

/-- C2 witness: a table where only Temperature is due at time 1. -/
def stW2 : SensorID → SensorState := fun id =>
  match id with
  | SensorID.temperature =>
      { interval := 1, isCounter := false, lastValue := none,
        counter := 0, nextDue := SimT.fin 1 }
  | _ => { interval := 0, isCounter := false, lastValue := none,
           counter := 0, nextDue := SimT.maxT }

theorem C2_tempCouplesHumidity_witness :
    SimT.dueAt (stW2 SensorID.temperature).nextDue 1 = true
    ∧ ∃ p, (sampleAndSendIfDue envW2 stW2 1).2.1 = some p
        ∧ p.bitmap.temperature = true ∧ p.bitmap.humidity = true :=
  ⟨by decide, C2_tempCouplesHumidity envW2 stW2 1 (by decide)⟩

/-- C3: every outbound packet's wire size equals
`basePayloadBytes + 1 + 8 + 8 * (number of present non-counter fields)
+ counterPayloadBytes when the counter bit is set` — a deterministic
function of the presence bitmap and the two configuration constants —
and with `basePayloadBytes = 10`, `counterPayloadBytes = 4` the sizes
are 27 for only NO2, 35 for NO2 + Humidity, and 23 for only the
counter. -/
theorem C3_wireSize (env : Env) (st : SensorID → SensorState) (now : ℚ)
    (p : Packet) (hp : (sampleAndSendIfDue env st now).2.1 = some p) :
    (p.chunkBytes = env.basePayloadBytes + 1 + 8
        + 8 * ((if p.bitmap.temperature then 1 else 0)
               + (if p.bitmap.no2 then 1 else 0)
               + (if p.bitmap.humidity then 1 else 0))
        + (if p.bitmap.counter then env.counterPayloadBytes else 0))
    ∧ packetBytes 10 4 { temperature := false, no2 := true,
                         humidity := false, counter := false } = 27
    ∧ packetBytes 10 4 { temperature := false, no2 := true,
                         humidity := true, counter := false } = 35
    ∧ packetBytes 10 4 { temperature := false, no2 := false,
                         humidity := false, counter := true } = 23 := by
  refine ⟨?_, by decide, by decide, by decide⟩
  by_cases hb : (runCycle env now st).bitmap = SB_NONE
  · simp [sampleAndSendIfDue, hb] at hp
  · rw [sample_some env st now hb] at hp
    have hpe := Option.some.inj hp
    subst hpe
    rw [attachLoRaTag_fst_chunkBytes, attachLoRaTag_fst_bitmap]
    simp only [buildPayload]
    exact packetBytes_formula env.basePayloadBytes env.counterPayloadBytes
      (runCycle env now st).bitmap

/-- C3 witness: environment with NO2 enabled only. -/
def envW3 : Env :=
  { jitterFrac := 0, basePayloadBytes := 10, counterPayloadBytes := 4,
    nodeId := "n", loRaRadioSt := none, dBmW2mW := fun x => x,
    tempGen := fun _ => 0, humGen := fun _ => 0, no2Gen := fun _ => 0,
    off := fun _ => 0 }

/-- C3 witness: a table where only NO2 is due at time 1. -/
def stW3 : SensorID → SensorState := fun id =>
  match id with
  | SensorID.no2 =>
      { interval := 1, isCounter := false, lastValue := none,
        counter := 0, nextDue := SimT.fin 1 }
  | _ => { interval := 0, isCounter := false, lastValue := none,
           counter := 0, nextDue := SimT.maxT }

/-- C3 witness: the packet that cycle hands to `send`. -/
def pktW3 : Packet :=
  { bitmap := { temperature := false, no2 := true,
                humidity := false, counter := false },
    temperature := none, no2 := some 0, humidity := none, counter := 0,
    nodeId := "n", createdAt := 1, chunkBytes := 27, tag := none }

theorem C3_wireSize_witness :
    (sampleAndSendIfDue envW3 stW3 1).2.1 = some pktW3
    ∧ pktW3.chunkBytes = envW3.basePayloadBytes + 1 + 8
        + 8 * ((if pktW3.bitmap.temperature then 1 else 0)
               + (if pktW3.bitmap.no2 then 1 else 0)
               + (if pktW3.bitmap.humidity then 1 else 0))
        + (if pktW3.bitmap.counter then envW3.counterPayloadBytes else 0) :=
  ⟨by decide, (C3_wireSize envW3 stW3 1 pktW3 (by decide)).1⟩

/-- C9: for every distance and frequency, the Weissberger path-loss
collaborator returns free-space loss plus the vegetation term: for
foliage depth 0 < d <= 14 it adds 0.45 * fGHz^0.284 * d, for d > 14 it
adds 1.33 * fGHz^0.284 * d^0.588, and for d <= 0 it adds nothing. -/
theorem C9_weissberger (fspl : ℝ → ℝ → ℝ) (vegDepth distance frequency : ℝ) :
    (0 < vegDepth → vegDepth ≤ 14 →
      computePathLoss fspl vegDepth distance frequency
        = fspl distance frequency
            + 0.45 * (frequency / 1e9) ^ (0.284 : ℝ) * vegDepth)
    ∧ (14 < vegDepth →
      computePathLoss fspl vegDepth distance frequency
        = fspl distance frequency
            + 1.33 * (frequency / 1e9) ^ (0.284 : ℝ)
                * vegDepth ^ (0.588 : ℝ))
    ∧ (vegDepth ≤ 0 →
      computePathLoss fspl vegDepth distance frequency
        = fspl distance frequency) := by
  refine ⟨fun h1 h2 => ?_, fun h1 => ?_, fun h1 => ?_⟩
  · rw [computePathLoss, weissbergerVeg, if_pos h1, if_pos h2]
  · rw [computePathLoss, weissbergerVeg, if_pos (by linarith : (0:ℝ) < vegDepth),
      if_neg (by linarith : ¬ vegDepth ≤ 14)]
  · rw [computePathLoss, weissbergerVeg, if_neg (by linarith : ¬ (0:ℝ) < vegDepth),
      add_zero]

/-- C4 (amended): for every quantity with a positive interval, every
firing at time `now` with a jitter draw inside the drawn window
`[-interval*jitterFrac, interval*jitterFrac]` recomputes `nextDue` to
`now + interval + offset`, which lies within
`[now + interval*(1 - jitterFrac), now + interval*(1 + jitterFrac)]`;
and provided `jitterFrac < 1` the new `nextDue` is strictly greater
than the previous one, so repeated firings are strictly increasing. -/
theorem C4_jitterBounds (env : Env) (st : SensorID → SensorState) (now : ℚ)
    (id : SensorID)
    (hi : 0 < (st id).interval)
    (hfire : SimT.dueAt (st id).nextDue now = true)
    (hlo : -((st id).interval * env.jitterFrac) ≤ env.off id)
    (hhi : env.off id ≤ (st id).interval * env.jitterFrac) :
    ((sampleAndSendIfDue env st now).1 id).nextDue
        = SimT.fin (now + (st id).interval + env.off id)
    ∧ now + (st id).interval * (1 - env.jitterFrac)
        ≤ now + (st id).interval + env.off id
    ∧ now + (st id).interval + env.off id
        ≤ now + (st id).interval * (1 + env.jitterFrac)
    ∧ (env.jitterFrac < 1 →
        SimT.ltB (st id).nextDue
          (SimT.fin (now + (st id).interval + env.off id)) = true) := by
  refine ⟨?_, ?_, ?_, ?_⟩
  · rw [sample_fst, runCycle_st, if_pos hfire]
    cases id <;> simp [firedState, hi]
  · have hexp : (st id).interval * (1 - env.jitterFrac)
        = (st id).interval - (st id).interval * env.jitterFrac := by ring
    linarith
  · have hexp : (st id).interval * (1 + env.jitterFrac)
        = (st id).interval + (st id).interval * env.jitterFrac := by ring
    linarith
  · intro hjf
    rcases hnd : (st id).nextDue with t0 | _
    · rw [hnd] at hfire
      simp only [SimT.dueAt, SimT.leB, decide_eq_true_eq] at hfire
      simp only [SimT.ltB, decide_eq_true_eq]
      have h1 : (st id).interval * env.jitterFrac < (st id).interval * 1 :=
        mul_lt_mul_of_pos_left hjf hi
      rw [mul_one] at h1
      linarith
    · rw [hnd] at hfire
      simp [SimT.dueAt, SimT.leB] at hfire

/-- C4 counterexample: with `jitterFraction = 1` (a non-negative, hence
valid configuration) an NO2 quantity with interval 1 due at time 10 can
draw the offset -1 (inside the uniform window `[-1, 1)`), after which
the recomputed `nextDue` equals the previous `nextDue` (10 = 10): the
sequence of `nextDue` values is not strictly increasing as claimed. -/
def envC4 : Env :=
  { jitterFrac := 1, basePayloadBytes := 10, counterPayloadBytes := 4,
    nodeId := "n", loRaRadioSt := none, dBmW2mW := fun x => x,
    tempGen := fun _ => 0, humGen := fun _ => 0, no2Gen := fun _ => 0,
    off := fun _ => -1 }

/-- C4 counterexample: only NO2 enabled, interval 1, due exactly at 10. -/
def stC4 : SensorID → SensorState := fun id =>
  match id with
  | SensorID.no2 =>
      { interval := 1, isCounter := false, lastValue := none,
        counter := 0, nextDue := SimT.fin 10 }
  | _ => { interval := 0, isCounter := false, lastValue := none,
           counter := 0, nextDue := SimT.maxT }

theorem C4_cex :
    0 < (stC4 SensorID.no2).interval
    ∧ SimT.dueAt (stC4 SensorID.no2).nextDue 10 = true
    ∧ -((stC4 SensorID.no2).interval * envC4.jitterFrac)
        ≤ envC4.off SensorID.no2
    ∧ envC4.off SensorID.no2
        ≤ (stC4 SensorID.no2).interval * envC4.jitterFrac
    ∧ ((sampleAndSendIfDue envC4 stC4 10).1 SensorID.no2).nextDue
        = (stC4 SensorID.no2).nextDue
    ∧ SimT.ltB (stC4 SensorID.no2).nextDue
        ((sampleAndSendIfDue envC4 stC4 10).1 SensorID.no2).nextDue = false := by
  have hst : ((sampleAndSendIfDue envC4 stC4 10).1 SensorID.no2).nextDue
      = SimT.fin 10 := by
    rw [sample_fst, runCycle_st, if_pos (by decide)]
    norm_num [firedState, stC4, envC4]
  refine ⟨by norm_num [stC4], by decide, by norm_num [stC4, envC4],
    by norm_num [stC4, envC4], ?_, ?_⟩
  · rw [hst]; rfl
  · rw [hst]; decide

/-- C4 witness: jitter fraction 1/2, NO2 interval 1 due at time 1,
offset draw 1/4. -/
def envW4 : Env :=
  { jitterFrac := 1/2, basePayloadBytes := 10, counterPayloadBytes := 4,
    nodeId := "n", loRaRadioSt := none, dBmW2mW := fun x => x,
    tempGen := fun _ => 0, humGen := fun _ => 0, no2Gen := fun _ => 0,
    off := fun _ => 1/4 }

/-- C4 witness: only NO2 enabled, interval 1, due at time 1. -/
def stW4 : SensorID → SensorState := fun id =>
  match id with
  | SensorID.no2 =>
      { interval := 1, isCounter := false, lastValue := none,
        counter := 0, nextDue := SimT.fin 1 }
  | _ => { interval := 0, isCounter := false, lastValue := none,
           counter := 0, nextDue := SimT.maxT }

theorem C4_jitterBounds_witness :
    0 < (stW4 SensorID.no2).interval
    ∧ SimT.dueAt (stW4 SensorID.no2).nextDue 1 = true
    ∧ -((stW4 SensorID.no2).interval * envW4.jitterFrac)
        ≤ envW4.off SensorID.no2
    ∧ envW4.off SensorID.no2
        ≤ (stW4 SensorID.no2).interval * envW4.jitterFrac
    ∧ (((sampleAndSendIfDue envW4 stW4 1).1 SensorID.no2).nextDue
          = SimT.fin (1 + (stW4 SensorID.no2).interval + envW4.off SensorID.no2)
        ∧ 1 + (stW4 SensorID.no2).interval * (1 - envW4.jitterFrac)
            ≤ 1 + (stW4 SensorID.no2).interval + envW4.off SensorID.no2
        ∧ 1 + (stW4 SensorID.no2).interval + envW4.off SensorID.no2
            ≤ 1 + (stW4 SensorID.no2).interval * (1 + envW4.jitterFrac)
        ∧ (envW4.jitterFrac < 1 →
            SimT.ltB (stW4 SensorID.no2).nextDue
              (SimT.fin (1 + (stW4 SensorID.no2).interval
                + envW4.off SensorID.no2)) = true)) :=
  ⟨by norm_num [stW4], by decide, by norm_num [stW4, envW4],
   by norm_num [stW4, envW4],
   C4_jitterBounds envW4 stW4 1 SensorID.no2 (by norm_num [stW4]) (by decide)
     (by norm_num [stW4, envW4]) (by norm_num [stW4, envW4])⟩

/-- C5 (amended): a quantity configured with `interval <= 0` has
`nextDue` equal to the disabled sentinel at startup (`initSensor`) and
still after any wake-up, and its presence bit is never set in an
outbound record — except that the humidity presence bit is still set
whenever Temperature fires, by the coupled-sampling rule. -/
theorem C5_disabledSensor (env : Env) (st : SensorID → SensorState)
    (now : ℚ) (id : SensorID)
    (hint : (st id).interval ≤ 0) (hnd : (st id).nextDue = SimT.maxT) :
    ((sampleAndSendIfDue env st now).1 id).nextDue = SimT.maxT
    ∧ (∀ p, (sampleAndSendIfDue env st now).2.1 = some p →
        Bitmap.bit id p.bitmap = true →
        id = SensorID.humidity
          ∧ SimT.dueAt (st SensorID.temperature).nextDue now = true)
    ∧ (∀ jf iv isC t off2, iv ≤ 0 →
        (initSensor jf iv isC t off2).nextDue = SimT.maxT) := by
  have hdue : SimT.dueAt (st id).nextDue now = false := by rw [hnd]; rfl
  refine ⟨?_, ?_, ?_⟩
  · rw [sample_fst, runCycle_st, if_neg (by simp [hdue]), hnd]
  · intro p hp hbit
    by_cases hb : (runCycle env now st).bitmap = SB_NONE
    · simp [sampleAndSendIfDue, hb] at hp
    · rw [sample_some env st now hb] at hp
      have hpe := Option.some.inj hp
      subst hpe
      rw [attachLoRaTag_fst_bitmap] at hbit
      simp only [buildPayload] at hbit
      rw [runCycle_bitmap] at hbit
      cases id with
      | temperature => simp [Bitmap.bit, hdue] at hbit
      | no2 => simp [Bitmap.bit, hdue] at hbit
      | humidity =>
          simp only [Bitmap.bit, hdue, Bool.or_false] at hbit
          exact ⟨rfl, hbit⟩
      | counterQ => simp [Bitmap.bit, hdue] at hbit
  · intro jf iv isC t off2 hle
    simp [initSensor, not_lt.mpr hle]

/-- C5 counterexample: humidity disabled (`interval = 0`, sentinel
`nextDue`) while Temperature fires at time 1: the outbound record of
that cycle nevertheless carries the humidity presence bit, so the
disabled quantity does appear in an outbound record, contrary to the
claim. -/
def envC5 : Env :=
  { jitterFrac := 0, basePayloadBytes := 10, counterPayloadBytes := 4,
    nodeId := "n", loRaRadioSt := none, dBmW2mW := fun x => x,
    tempGen := fun _ => 0, humGen := fun _ => 0, no2Gen := fun _ => 0,
    off := fun _ => 0 }

/-- C5 counterexample: Temperature enabled and due at 1, Humidity
disabled. -/
def stC5 : SensorID → SensorState := fun id =>
  match id with
  | SensorID.temperature =>
      { interval := 1, isCounter := false, lastValue := none,
        counter := 0, nextDue := SimT.fin 1 }
  | _ => { interval := 0, isCounter := false, lastValue := none,
           counter := 0, nextDue := SimT.maxT }

theorem C5_cex :
    (stC5 SensorID.humidity).interval ≤ 0
    ∧ (stC5 SensorID.humidity).nextDue = SimT.maxT
    ∧ Option.map (fun p => p.bitmap.humidity)
        ((sampleAndSendIfDue envC5 stC5 1).2.1) = some true := by
  refine ⟨by decide, by decide, ?_⟩
  decide

/-- C5 witness: NO2 disabled while Temperature fires. -/
def envW5 : Env :=
  { jitterFrac := 0, basePayloadBytes := 10, counterPayloadBytes := 4,
    nodeId := "n", loRaRadioSt := none, dBmW2mW := fun x => x,
    tempGen := fun _ => 0, humGen := fun _ => 0, no2Gen := fun _ => 0,
    off := fun _ => 0 }

/-- C5 witness: Temperature due at 1, NO2 disabled. -/
def stW5 : SensorID → SensorState := fun id =>
  match id with
  | SensorID.temperature =>
      { interval := 1, isCounter := false, lastValue := none,
        counter := 0, nextDue := SimT.fin 1 }
  | _ => { interval := 0, isCounter := false, lastValue := none,
           counter := 0, nextDue := SimT.maxT }

theorem C5_disabledSensor_witness :
    (stW5 SensorID.no2).interval ≤ 0
    ∧ (stW5 SensorID.no2).nextDue = SimT.maxT
    ∧ (((sampleAndSendIfDue envW5 stW5 1).1 SensorID.no2).nextDue = SimT.maxT
        ∧ (∀ p, (sampleAndSendIfDue envW5 stW5 1).2.1 = some p →
            Bitmap.bit SensorID.no2 p.bitmap = true →
            SensorID.no2 = SensorID.humidity
              ∧ SimT.dueAt (stW5 SensorID.temperature).nextDue 1 = true)
        ∧ (∀ jf iv isC t off2, iv ≤ 0 →
            (initSensor jf iv isC t off2).nextDue = SimT.maxT)) :=
  ⟨by decide, by decide,
   C5_disabledSensor envW5 stW5 1 SensorID.no2 (by decide) (by decide)⟩

/-- C6: at a wake-up where no quantity is due, no packet is sent, no
signal is emitted and the sensor table is unchanged. -/
theorem C6_silentCycle (env : Env) (st : SensorID → SensorState) (now : ℚ)
    (h : ∀ id, SimT.dueAt (st id).nextDue now = false) :
    sampleAndSendIfDue env st now = (st, none, []) := by
  have h0 := runCycle_none env now st h
  simp [sampleAndSendIfDue, h0, initAcc]

/-- C6 witness: everything disabled. -/
def envW6 : Env :=
  { jitterFrac := 0, basePayloadBytes := 10, counterPayloadBytes := 4,
    nodeId := "n", loRaRadioSt := none, dBmW2mW := fun x => x,
    tempGen := fun _ => 0, humGen := fun _ => 0, no2Gen := fun _ => 0,
    off := fun _ => 0 }

/-- C6 witness: nothing is due at time 1 (temperature pending at 5,
the rest disabled). -/
def stW6 : SensorID → SensorState := fun id =>
  match id with
  | SensorID.temperature =>
      { interval := 1, isCounter := false, lastValue := none,
        counter := 0, nextDue := SimT.fin 5 }
  | _ => { interval := 0, isCounter := false, lastValue := none,
           counter := 0, nextDue := SimT.maxT }

theorem C6_silentCycle_witness :
    (∀ id, SimT.dueAt (stW6 id).nextDue 1 = false)
    ∧ sampleAndSendIfDue envW6 stW6 1 = (stW6, none, []) :=
  ⟨by intro id; cases id <;> decide,
   C6_silentCycle envW6 stW6 1 (by intro id; cases id <;> decide)⟩

/-- Projects the value carried by a counter signal. -/
def countVal : Signal → Option ℤ
  | Signal.counterSig c => some c
  | _ => none

/-- C7: environment for the five-firing run (counter interval 1, no
jitter). -/
def envC7 : Env :=
  { jitterFrac := 0, basePayloadBytes := 10, counterPayloadBytes := 4,
    nodeId := "n", loRaRadioSt := none, dBmW2mW := fun x => x,
    tempGen := fun _ => 0, humGen := fun _ => 0, no2Gen := fun _ => 0,
    off := fun _ => 0 }

/-- C7: initial table — only the counter quantity enabled, initialised
by `initSensor` (counter 0, first due time 1). -/
def stC7 : SensorID → SensorState := fun id =>
  match id with
  | SensorID.counterQ =>
      { interval := 1, isCounter := true, lastValue := none,
        counter := 0, nextDue := SimT.fin 1 }
  | _ => { interval := 0, isCounter := false, lastValue := none,
           counter := 0, nextDue := SimT.maxT }

/-- C7: the counter values reported across five consecutive wake-ups at
times 1, 2, 3, 4, 5. -/
def counterRun5 : List ℤ :=
  let r1 := sampleAndSendIfDue envC7 stC7 1
  let r2 := sampleAndSendIfDue envC7 r1.1 2
  let r3 := sampleAndSendIfDue envC7 r2.1 3
  let r4 := sampleAndSendIfDue envC7 r3.1 4
  let r5 := sampleAndSendIfDue envC7 r4.1 5
  List.filterMap countVal (r1.2.2 ++ r2.2.2 ++ r3.2.2 ++ r4.2.2 ++ r5.2.2)

/-- C7: each firing of the counter quantity increments its counter by
exactly 1 (the new value is reported in the signal trace and in the
outbound packet), and the concrete five-firing run starting from the
initial counter 0 reports 1, 2, 3, 4, 5 in order. -/
theorem C7_counter :
    (∀ env st now,
      SimT.dueAt (st SensorID.counterQ).nextDue now = true →
      ((sampleAndSendIfDue env st now).1 SensorID.counterQ).counter
          = (st SensorID.counterQ).counter + 1
        ∧ Signal.counterSig ((st SensorID.counterQ).counter + 1)
            ∈ (sampleAndSendIfDue env st now).2.2
        ∧ Option.map (fun p => p.counter) ((sampleAndSendIfDue env st now).2.1)
            = some ((st SensorID.counterQ).counter + 1))
    ∧ counterRun5 = [1, 2, 3, 4, 5] := by
  constructor
  · intro env st now hC
    have hb := runCycle_bitmap env now st
    have hne : (runCycle env now st).bitmap ≠ SB_NONE := by
      rw [hb]; simp [SB_NONE, hC]
    refine ⟨?_, ?_, ?_⟩
    · rw [sample_fst, runCycle_st, if_pos hC]
      simp [firedState]
    · have hs : (sampleAndSendIfDue env st now).2.2
          = (runCycle env now st).sigs
              ++ [Signal.pktSent (runCycle env now st).bitmap] := by
        simp [sampleAndSendIfDue, hne]
      rw [hs]
      refine List.mem_append.mpr (Or.inl ?_)
      cases hT : SimT.dueAt (st SensorID.temperature).nextDue now <;>
        cases hN : SimT.dueAt (st SensorID.no2).nextDue now <;>
        cases hH : SimT.dueAt (st SensorID.humidity).nextDue now <;>
        simp [runCycle, loopOrder, initAcc, processSensor, hT, hN, hH, hC,
          Function.update_apply]
    · rw [sample_some env st now hne]
      simp only [Option.map_some']
      rw [attachLoRaTag_fst_counter]
      simp only [buildPayload]
      rw [runCycle_counterVal, if_pos hC]
  · norm_num +decide [counterRun5, sampleAndSendIfDue, runCycle, loopOrder,
      initAcc, processSensor, envC7, stC7, SimT.dueAt, SimT.leB,
      Function.update_apply, buildPayload, SB_NONE, attachLoRaTag, countVal,
      List.filterMap]

/-- C7 witness: a counter quantity at value 7, due at time 1. -/
def envW7 : Env :=
  { jitterFrac := 0, basePayloadBytes := 10, counterPayloadBytes := 4,
    nodeId := "n", loRaRadioSt := none, dBmW2mW := fun x => x,
    tempGen := fun _ => 0, humGen := fun _ => 0, no2Gen := fun _ => 0,
    off := fun _ => 0 }

/-- C7 witness: only the counter quantity enabled, counter 7, due at 1. -/
def stW7 : SensorID → SensorState := fun id =>
  match id with
  | SensorID.counterQ =>
      { interval := 1, isCounter := true, lastValue := none,
        counter := 7, nextDue := SimT.fin 1 }
  | _ => { interval := 0, isCounter := false, lastValue := none,
           counter := 0, nextDue := SimT.maxT }

theorem C7_counter_witness :
    SimT.dueAt (stW7 SensorID.counterQ).nextDue 1 = true
    ∧ (((sampleAndSendIfDue envW7 stW7 1).1 SensorID.counterQ).counter
          = (stW7 SensorID.counterQ).counter + 1
        ∧ Signal.counterSig ((stW7 SensorID.counterQ).counter + 1)
            ∈ (sampleAndSendIfDue envW7 stW7 1).2.2
        ∧ Option.map (fun p => p.counter) ((sampleAndSendIfDue envW7 stW7 1).2.1)
            = some ((stW7 SensorID.counterQ).counter + 1)) :=
  ⟨by decide, C7_counter.1 envW7 stW7 1 (by decide)⟩

/-- C8: when no radio component was located at startup, tagging is a
no-op (the packet keeps no tag), yet a packet is still sent whenever
any quantity is due — the missing radio never suppresses the uplink. -/
theorem C8_noRadioTagNoop (env : Env) (st : SensorID → SensorState)
    (now : ℚ) (hr : env.loRaRadioSt = none) :
    (∀ p, (sampleAndSendIfDue env st now).2.1 = some p → p.tag = none)
    ∧ (∀ id, SimT.dueAt (st id).nextDue now = true →
        (sampleAndSendIfDue env st now).2.1 ≠ none)
    ∧ (∀ f pkt, (attachLoRaTag f none pkt).1 = pkt) := by
  refine ⟨?_, ?_, fun f pkt => rfl⟩
  · intro p hp
    by_cases hb : (runCycle env now st).bitmap = SB_NONE
    · simp [sampleAndSendIfDue, hb] at hp
    · rw [sample_some env st now hb, hr] at hp
      have hpe := Option.some.inj hp
      subst hpe
      rfl
  · intro id hid
    have hb := runCycle_bitmap env now st
    have hne : (runCycle env now st).bitmap ≠ SB_NONE := by
      rw [hb]; cases id <;> simp [SB_NONE, hid]
    rw [sample_some env st now hne]
    simp

/-- C8 witness: no radio located, NO2 due at time 1. -/
def envW8 : Env :=
  { jitterFrac := 0, basePayloadBytes := 10, counterPayloadBytes := 4,
    nodeId := "n", loRaRadioSt := none, dBmW2mW := fun x => x,
    tempGen := fun _ => 0, humGen := fun _ => 0, no2Gen := fun _ => 0,
    off := fun _ => 0 }

/-- C8 witness: only NO2 enabled, due at time 1. -/
def stW8 : SensorID → SensorState := fun id =>
  match id with
  | SensorID.no2 =>
      { interval := 1, isCounter := false, lastValue := none,
        counter := 0, nextDue := SimT.fin 1 }
  | _ => { interval := 0, isCounter := false, lastValue := none,
           counter := 0, nextDue := SimT.maxT }

theorem C8_noRadioTagNoop_witness :
    envW8.loRaRadioSt = none
    ∧ ((∀ p, (sampleAndSendIfDue envW8 stW8 1).2.1 = some p → p.tag = none)
        ∧ (∀ id, SimT.dueAt (stW8 id).nextDue 1 = true →
            (sampleAndSendIfDue envW8 stW8 1).2.1 ≠ none)
        ∧ (∀ f pkt, (attachLoRaTag f none pkt).1 = pkt)) :=
  ⟨rfl, C8_noRadioTagNoop envW8 stW8 1 rfl⟩

/-- Recognises humidity observability signals. -/
def isHumSig : Signal → Bool
  | Signal.hum _ => true
  | _ => false

/-- C10: when Temperature and Humidity are both due at the same
wake-up, the humidity generator runs twice in that cycle (the
temperature-coupled draw and humidity's own draw), the humidity signal
is emitted twice — carrying the first and second draw in order — and
the outbound packet carries the second (humidity's own) draw. -/
theorem C10_humidityTwice (env : Env) (st : SensorID → SensorState)
    (now : ℚ)
    (hT : SimT.dueAt (st SensorID.temperature).nextDue now = true)
    (hH : SimT.dueAt (st SensorID.humidity).nextDue now = true) :
    List.filter isHumSig (sampleAndSendIfDue env st now).2.2
        = [Signal.hum (env.humGen 0), Signal.hum (env.humGen 1)]
    ∧ (runCycle env now st).hIdx = 2
    ∧ Option.map (fun p => p.humidity) ((sampleAndSendIfDue env st now).2.1)
        = some (some (env.humGen 1)) := by
  have hb := runCycle_bitmap env now st
  have hne : (runCycle env now st).bitmap ≠ SB_NONE := by
    rw [hb]; simp [SB_NONE, hT]
  have hs : (sampleAndSendIfDue env st now).2.2
      = (runCycle env now st).sigs
          ++ [Signal.pktSent (runCycle env now st).bitmap] := by
    simp [sampleAndSendIfDue, hne]
  refine ⟨?_, ?_, ?_⟩
  · rw [hs]
    cases hN : SimT.dueAt (st SensorID.no2).nextDue now <;>
      cases hC : SimT.dueAt (st SensorID.counterQ).nextDue now <;>
      simp [runCycle, loopOrder, initAcc, processSensor, hT, hH, hN, hC,
        Function.update_apply, isHumSig]
  · cases hN : SimT.dueAt (st SensorID.no2).nextDue now <;>
      cases hC : SimT.dueAt (st SensorID.counterQ).nextDue now <;>
      simp [runCycle, loopOrder, initAcc, processSensor, hT, hH, hN, hC,
        Function.update_apply]
  · rw [sample_some env st now hne]
    simp only [Option.map_some']
    rw [attachLoRaTag_fst_humidity]
    simp only [buildPayload]
    cases hN : SimT.dueAt (st SensorID.no2).nextDue now <;>
      cases hC : SimT.dueAt (st SensorID.counterQ).nextDue now <;>
      simp [runCycle, loopOrder, initAcc, processSensor, hT, hH, hN, hC,
        Function.update_apply]

/-- C10 witness: the humidity generator reports its call index, so the
two draws are distinguishable. -/
def envW10 : Env :=
  { jitterFrac := 0, basePayloadBytes := 10, counterPayloadBytes := 4,
    nodeId := "n", loRaRadioSt := none, dBmW2mW := fun x => x,
    tempGen := fun _ => 0, humGen := fun n => (n : ℚ), no2Gen := fun _ => 0,
    off := fun _ => 0 }

/-- C10 witness: Temperature and Humidity both due at time 1. -/
def stW10 : SensorID → SensorState := fun id =>
  match id with
  | SensorID.temperature =>
      { interval := 1, isCounter := false, lastValue := none,
        counter := 0, nextDue := SimT.fin 1 }
  | SensorID.humidity =>
      { interval := 1, isCounter := false, lastValue := none,
        counter := 0, nextDue := SimT.fin 1 }
  | _ => { interval := 0, isCounter := false, lastValue := none,
           counter := 0, nextDue := SimT.maxT }

theorem C10_humidityTwice_witness :
    SimT.dueAt (stW10 SensorID.temperature).nextDue 1 = true
    ∧ SimT.dueAt (stW10 SensorID.humidity).nextDue 1 = true
    ∧ (List.filter isHumSig (sampleAndSendIfDue envW10 stW10 1).2.2
          = [Signal.hum (envW10.humGen 0), Signal.hum (envW10.humGen 1)]
        ∧ (runCycle envW10 1 stW10).hIdx = 2
        ∧ Option.map (fun p => p.humidity)
            ((sampleAndSendIfDue envW10 stW10 1).2.1)
          = some (some (envW10.humGen 1))) :=
  ⟨by decide, by decide,
   C10_humidityTwice envW10 stW10 1 (by decide) (by decide)⟩

theorem C9_weissberger_witness :
    (0 : ℝ) < 7 ∧ (7 : ℝ) ≤ 14
    ∧ computePathLoss (fun _ _ => 0) 7 1000 868000000
        = (fun _ _ => (0 : ℝ)) 1000 868000000
            + 0.45 * ((868000000 : ℝ) / 1e9) ^ (0.284 : ℝ) * 7 :=
  ⟨by norm_num, by norm_num,
    (C9_weissberger (fun _ _ => 0) 7 1000 868000000).1 (by norm_num) (by norm_num)⟩
